import Mathlib

/-!
Verification development for the `mcp-chatbot` repository.

Shallow embedding of the tool-calling orchestration core:
* `convert_schema` embeds `src/mcp_chatbot/adapter/tool_schema_converter.py`;
* `process_query`, `handleCalls`, `runLoop` embed the conversation loop of
  `MCP_Chatbot.process_query` in `src/mcp_chatbot/chatbot.py`;
* `connect_to_server` embeds the registration phase of
  `MCP_Chatbot.connect_to_server`;
* the `mcp_chatbot.tools` module is absent from the sources (only its tests
  exist), so `execute_tool` below is modelled from the spec and the tests.

The external LLM provider (`gemini_client.models.generate_content`) is modelled
as an oracle `gen : Nat -> ModelResponse` giving the response to the k-th
generate call of one query; tool-server sessions are modelled by their
`call_tool` behaviour, an `Except` value (exception message or result content).
-/

namespace MCPChatbot

/-! ## Schema adapter (`tool_schema_converter.py`) -/

/-- The provider type enumeration `google.genai.types.Type`. -/
inductive GType where
  | TYPE_UNSPECIFIED
  | STRING
  | NUMBER
  | INTEGER
  | BOOLEAN
  | ARRAY
  | OBJECT
  | NULL
deriving DecidableEq, Repr

/-- `getattr(types.Type, s, default)` without the default: the member of the
provider type enumeration named `s`, if any. -/
def typeEnumLookup (s : String) : Option GType :=
  if s = "TYPE_UNSPECIFIED" then some GType.TYPE_UNSPECIFIED
  else if s = "STRING" then some GType.STRING
  else if s = "NUMBER" then some GType.NUMBER
  else if s = "INTEGER" then some GType.INTEGER
  else if s = "BOOLEAN" then some GType.BOOLEAN
  else if s = "ARRAY" then some GType.ARRAY
  else if s = "OBJECT" then some GType.OBJECT
  else if s = "NULL" then some GType.NULL
  else none

/-- `getattr(types.Type, s, types.Type.STRING)`. -/
def typeFromString (s : String) : GType :=
  (typeEnumLookup s).getD GType.STRING

/-- Python `str.upper()` for the ASCII type strings appearing in schemas. -/
def pyUpper (s : String) : String := String.mk (s.data.map Char.toUpper)

/-- The `items` sub-dict of a property definition: its optional `type` entry. -/
structure ItemsDef where
  type : Option String
deriving DecidableEq, Repr

/-- One property definition inside the `properties` dict of an MCP input
schema: optional `type`, `description` and `items` entries (the entries
`convert_schema` reads). -/
structure PropDef where
  type : Option String
  description : Option String
  items : Option ItemsDef
deriving DecidableEq, Repr

/-- The `types.Schema(type=items_type)` value stored in the `items` slot. -/
structure ItemSchema where
  type : GType
deriving DecidableEq, Repr

/-- The `types.Schema` built for one property by `convert_schema`. -/
structure PropSchema where
  type : GType
  description : String
  items : Option ItemSchema
deriving DecidableEq, Repr

/-- The top-level `types.Schema` returned by `convert_schema`. -/
structure GeminiSchema where
  type : GType
  properties : Option (List (String × PropSchema))
  required : Option (List String)
deriving DecidableEq, Repr

/-- The input of `convert_schema`: either not a Python dict at all, or a dict
with optional `properties` and `required` entries. -/
inductive MCPInputSchema where
  | notDict
  | dict (properties : Option (List (String × PropDef))) (required : Option (List String))
deriving DecidableEq, Repr

/-- The per-property body of the loop in `convert_schema`:
`prop_type_str = prop_def.get('type', 'string').upper()`,
`prop_type = getattr(types.Type, prop_type_str, types.Type.STRING)`, the
description carry-through, and the array-items handling. -/
def convertProp (d : PropDef) : PropSchema :=
  let prop_type_str := pyUpper (d.type.getD "string")
  let prop_type := typeFromString prop_type_str
  let base : PropSchema :=
    { type := prop_type, description := d.description.getD "", items := none }
  if prop_type = GType.ARRAY then
    match d.items with
    | some it =>
        { base with items := some ⟨typeFromString (pyUpper (it.type.getD "string"))⟩ }
    | none => { base with items := some ⟨GType.STRING⟩ }
  else base

/-- `convert_schema` from `tool_schema_converter.py`: non-dict input yields
`Schema(type=OBJECT)`; dict input yields an OBJECT schema whose properties are
the converted properties (empty when the `properties` key is absent) and whose
`required` is `mcpInputSchema.get('required', [])`. -/
def convert_schema : MCPInputSchema → GeminiSchema
  | MCPInputSchema.notDict =>
      { type := GType.OBJECT, properties := none, required := none }
  | MCPInputSchema.dict props req =>
      { type := GType.OBJECT
        properties := some ((props.getD []).map (fun p => (p.1, convertProp p.2)))
        required := some (req.getD []) }

/-! ## Session registry and conversation loop (`chatbot.py`) -/

/-- A tool-call argument bag (`function_call.args` as a dict). -/
def Args := List (String × String)
deriving DecidableEq

/-- A connected MCP client session, modelled by its `call_tool` behaviour:
`Except.error msg` when the call raises (with `str(e) = msg`), and
`Except.ok content` when it returns a result whose `.content` field is
`content`. -/
structure Session where
  call_tool : String → Args → Except String String

/-- Python dict lookup `m.get(k)` / `m[k]` for a dict with unique keys,
modelled on the underlying association list. -/
def dictGet {α : Type} : List (String × α) → String → Option α
  | [], _ => none
  | p :: rest, k => if p.1 == k then some p.2 else dictGet rest k

/-- Python dict assignment `m[k] = v`: replaces the value at an existing key
in place, otherwise appends a new entry at the end. -/
def dictInsert {α : Type} : List (String × α) → String → α → List (String × α)
  | [], k, v => [(k, v)]
  | p :: rest, k, v =>
      if p.1 == k then (k, v) :: rest else p :: dictInsert rest k v

/-- An MCP tool descriptor as stored in `available_tools`. -/
structure MCPTool where
  name : String
  description : Option String
  inputSchema : MCPInputSchema
deriving DecidableEq

/-- A prompt entry as stored in `available_prompts`
(`{"name": ..., "description": ..., "arguments": ...}`). -/
structure PromptDescriptor where
  name : String
  description : Option String
  arguments : List String
deriving DecidableEq

/-- The registry state of an `MCP_Chatbot` instance: `session_maps`,
`available_tools` and `available_prompts`. -/
structure ChatbotState where
  session_maps : List (String × Session)
  available_tools : List MCPTool
  available_prompts : List PromptDescriptor

/-- A function-call request in a model response: `function_call.name` (may be
`None`) and `function_call.args`. -/
structure FunctionCall where
  name : Option String
  args : Args
deriving DecidableEq

/-- One provider response: truthiness of `response.candidates`, the list
`response.function_calls` (empty when the response carries no calls), and
`response.text` (may be `None`). -/
structure ModelResponse where
  candidates : Bool
  function_calls : List FunctionCall
  text : Option String
deriving DecidableEq

/-- The payload of a `types.Part.from_function_response` part: either
`{'content': mcp_result.content}` on success or `{'error': str(e)}` on a
caught exception. -/
inductive FRPayload where
  | content (c : String)
  | error (msg : String)
deriving DecidableEq

/-- One content part: plain text or a function response. -/
inductive Part where
  | text (s : String)
  | functionResponse (name : String) (response : FRPayload)
deriving DecidableEq

/-- One `types.Content` transcript entry: a role and its parts. -/
structure Content where
  role : String
  parts : List Part
deriving DecidableEq

/-- The seeded user turn `types.Content(role='user', parts=[text])`. -/
def userContent (query : String) : Content :=
  { role := "user", parts := [Part.text query] }

/-- The inner `for function_call in response.function_calls` loop of
`process_query`: an empty or missing name is skipped (`if not tool_name:
continue`); an unregistered name does nothing (the `if tool_name in
self.session_maps` guard fails inside the `try`); a registered name is
dispatched via `session.call_tool`, appending one tool turn holding the
result content, or the `{'error': str(e)}` payload when the call raises.
Returns the grown transcript and the number of `call_tool` invocations. -/
def handleCalls (sm : List (String × Session)) :
    List FunctionCall → List Content → List Content × Nat
  | [], contents => (contents, 0)
  | fc :: rest, contents =>
    match fc.name with
    | none => handleCalls sm rest contents
    | some tool_name =>
      if tool_name = "" then handleCalls sm rest contents
      else
        match dictGet sm tool_name with
        | none => handleCalls sm rest contents
        | some session =>
          let entry : Content :=
            match session.call_tool tool_name fc.args with
            | Except.ok c =>
                { role := "tool", parts := [Part.functionResponse tool_name (FRPayload.content c)] }
            | Except.error e =>
                { role := "tool", parts := [Part.functionResponse tool_name (FRPayload.error e)] }
          let r := handleCalls sm rest (contents ++ [entry])
          (r.1, r.2 + 1)

/-- The number of calls in a list that `handleCalls` actually dispatches:
those with a nonempty name registered in the session maps. -/
def countDispatched (sm : List (String × Session)) (calls : List FunctionCall) : Nat :=
  calls.countP (fun fc =>
    match fc.name with
    | none => false
    | some n => n ≠ "" && (dictGet sm n).isSome)

/-- `max_iterations = 10` in `process_query`. -/
def max_iterations : Nat := 10

/-- The `while response.candidates and response.function_calls and iteration <
max_iterations` loop of `process_query`. `remaining` is `max_iterations -
iteration`, so the `iteration < max_iterations` conjunct of the guard is the
`remaining` pattern match. Each pass handles the calls of the current
response and generates the next response (`gen` indexed by generate-call
number; the response handled at iteration counter `i` is `gen i`). Returns
the final response, the transcript, the iteration counter and the total
number of dispatched calls. -/
def runLoop (sm : List (String × Session)) (gen : Nat → ModelResponse) :
    Nat → ModelResponse → List Content → Nat → Nat →
      ModelResponse × List Content × Nat × Nat
  | remaining, response, contents, iteration, dispatched =>
    if response.candidates && !response.function_calls.isEmpty then
      match remaining with
      | 0 => (response, contents, iteration, dispatched)
      | r + 1 =>
        let hc := handleCalls sm response.function_calls contents
        runLoop sm gen r (gen (iteration + 1)) hc.1 (iteration + 1) (dispatched + hc.2)
    else (response, contents, iteration, dispatched)

/-- One Gemini `types.FunctionDeclaration`. -/
structure FunctionDeclaration where
  name : String
  description : String
  parameters : GeminiSchema

/-- The `gemini_tools` list built at the top of `process_query`: one
declaration per entry of `available_tools`, with `description = tool.
description or ''` and `parameters = convert_schema(tool.inputSchema)`. -/
def geminiToolDecls (tools : List MCPTool) : List FunctionDeclaration :=
  tools.map (fun tool =>
    { name := tool.name
      description := tool.description.getD ""
      parameters := convert_schema tool.inputSchema })

/-- The observable outcome of one `process_query` run: the tool declarations
advertised on every generate call, the final transcript, the loop counter,
the number of dispatched tool calls, whether the truncation warning was
printed (`iteration >= max_iterations`), and the printed final
`response.text`. -/
structure QueryOutput where
  advertisedTools : List FunctionDeclaration
  contents : List Content
  iteration : Nat
  dispatches : Nat
  truncationWarning : Bool
  finalText : Option String

/-- `MCP_Chatbot.process_query`: build the tool declarations, seed the
transcript with the user turn, obtain the first response (`gen 0`), run the
bounded tool-call loop, then surface the truncation warning when `iteration
>= max_iterations` and print the last response text. Returns the (unchanged)
registry state together with the observable output. -/
def process_query (st : ChatbotState) (gen : Nat → ModelResponse)
    (query : String) : ChatbotState × QueryOutput :=
  let toolConfig := geminiToolDecls st.available_tools
  let contents := [userContent query]
  let r := runLoop st.session_maps gen max_iterations (gen 0) contents 0 0
  (st,
    { advertisedTools := toolConfig
      contents := r.2.1
      iteration := r.2.2.1
      dispatches := r.2.2.2
      truncationWarning := decide (r.2.2.1 ≥ max_iterations)
      finalText := r.1.text })

/-- The registration phase of `MCP_Chatbot.connect_to_server` on its success
path, given what the connected session advertises: each tool name is mapped
to the session in `session_maps` and its descriptor appended to
`available_tools`; each prompt name is mapped and its entry appended to
`available_prompts`; each resource URI is mapped. -/
def connect_to_server (st : ChatbotState) (session : Session)
    (tools : List MCPTool) (prompts : List PromptDescriptor)
    (resources : List String) : ChatbotState :=
  let st := tools.foldl (fun st tool =>
    { st with
        session_maps := dictInsert st.session_maps tool.name session
        available_tools := st.available_tools ++ [tool] }) st
  let st := prompts.foldl (fun st p =>
    { st with
        session_maps := dictInsert st.session_maps p.name session
        available_prompts := st.available_prompts ++ [p] }) st
  resources.foldl (fun st uri =>
    { st with session_maps := dictInsert st.session_maps uri session }) st

/-! ## Tool dispatch of the `mcp_chatbot.tools` module (spec-modelled) -/

/-- Modelled from the spec: the repository module `mcp_chatbot/tools.py`
(functions `search_papers`, `extract_info`, `execute_tool` and the
`mapping_tool_function` table) is missing from the sources; only its tests
exist. A Python tool result, per spec section 4.2 and the tests, is `None`,
a string, a list of identifier strings, or a string-keyed dict. -/
inductive PyResult where
  | noneVal
  | strVal (s : String)
  | listVal (xs : List String)
  | dictVal (kvs : List (String × String))
deriving DecidableEq

/-- An apostrophe character, for building literal message strings. -/
def apos : String := String.singleton (Char.ofNat 39)

/-- Modelled from the spec: the fixed sentinel placed into the transcript when
a tool returns `None` (tests: test_execute_tool_none_result). -/
def noResultsSentinel : String :=
  "The operation completed but didn" ++ apos ++ "t return any results."

/-- Modelled from the spec: a minimal `json.dumps` for a string-keyed dict of
strings, enough to state that a structured result is serialized to JSON
text. -/
def jsonDumps (kvs : List (String × String)) : String :=
  "\x7b" ++
    String.intercalate ", "
      (kvs.map (fun p => "\"" ++ p.1 ++ "\": \"" ++ p.2 ++ "\"")) ++
  "\x7d"

/-- Modelled from the spec: the result normalization of `execute_tool`
(spec section 4.2; tests TestExecuteTool): a `None` result becomes the fixed
sentinel, a list of identifiers is comma-joined, a dict is serialized to
JSON text, a string passes through. -/
def normalizeResult : PyResult → String
  | PyResult.noneVal => noResultsSentinel
  | PyResult.listVal xs => String.intercalate ", " xs
  | PyResult.dictVal kvs => jsonDumps kvs
  | PyResult.strVal s => s

/-- Modelled from the spec: `execute_tool(tool_name, tool_args)` of the
missing `mcp_chatbot/tools.py`: look the tool up in
`mapping_tool_function`, invoke it on the argument bag, and normalize the
result to a text-safe string. -/
def execute_tool (mapping_tool_function : List (String × (Args → PyResult)))
    (tool_name : String) (tool_args : Args) : Option String :=
  (dictGet mapping_tool_function tool_name).map
    (fun f => normalizeResult (f tool_args))

/-! ## Helper lemmas -/

/-- `handleCalls` appends exactly one transcript entry per dispatched call. -/
theorem handleCalls_length (sm : List (String × Session)) :
    ∀ (calls : List FunctionCall) (contents : List Content),
      (handleCalls sm calls contents).1.length
        = contents.length + (handleCalls sm calls contents).2 := by
  intro calls
  induction calls with
  | nil => intro contents; simp [handleCalls]
  | cons fc rest ih =>
    intro contents
    match hname : fc.name with
    | none => simp [handleCalls, hname, ih contents]
    | some n =>
      by_cases hn : n = ""
      · simp [handleCalls, hname, hn, ih contents]
      · match hs : dictGet sm n with
        | none => simp [handleCalls, hname, hn, hs, ih contents]
        | some s =>
          simp only [handleCalls, hname, hn, hs]
          have h := ih (contents ++
            [match s.call_tool n fc.args with
             | Except.ok c =>
                 { role := "tool", parts := [Part.functionResponse n (FRPayload.content c)] }
             | Except.error e =>
                 { role := "tool", parts := [Part.functionResponse n (FRPayload.error e)] }])
          simp at h
          simp [h]
          omega

/-- The dispatch counter of `handleCalls` counts the calls whose name is
nonempty and registered, independently of the transcript argument. -/
theorem handleCalls_count (sm : List (String × Session)) :
    ∀ (calls : List FunctionCall) (contents : List Content),
      (handleCalls sm calls contents).2 = countDispatched sm calls := by
  intro calls
  induction calls with
  | nil => intro contents; simp [handleCalls, countDispatched]
  | cons fc rest ih =>
    intro contents
    match hname : fc.name with
    | none =>
      simp [handleCalls, hname, ih contents, countDispatched, List.countP_cons]
    | some n =>
      by_cases hn : n = ""
      · simp [handleCalls, hname, hn, ih contents, countDispatched, List.countP_cons]
      · match hs : dictGet sm n with
        | none =>
          simp [handleCalls, hname, hn, hs, ih contents, countDispatched, List.countP_cons]
        | some s =>
          simp only [handleCalls, hname, hn, hs]
          simp [ih, countDispatched, List.countP_cons, hname, hn, hs]

/-- Looking up a key just written by `dictInsert` yields the written value. -/
theorem dictGet_dictInsert {α : Type} (k : String) (v : α) :
    ∀ m : List (String × α), dictGet (dictInsert m k v) k = some v := by
  intro m
  induction m with
  | nil => simp [dictGet, dictInsert]
  | cons p rest ih =>
    by_cases hp : (p.1 == k) = true
    · simp [dictGet, dictInsert, hp]
    · simp only [dictInsert, hp]
      simp only [Bool.not_eq_true] at hp
      simp [dictGet, hp, ih]

/-- The total number of calls dispatched over `r` consecutive loop passes
starting at iteration counter `i`: the dispatchable calls of `gen i`, then of
`gen (i+1)`, and so on. -/
def sumDispatched (sm : List (String × Session)) (gen : Nat → ModelResponse) :
    Nat → Nat → Nat
  | _, 0 => 0
  | i, r + 1 =>
      countDispatched sm (gen i).function_calls + sumDispatched sm gen (i + 1) r

/-- The loop counter of `runLoop` grows by at most the remaining fuel. -/
theorem runLoop_iteration_le (sm : List (String × Session))
    (gen : Nat → ModelResponse) :
    ∀ (m : Nat) (response : ModelResponse) (contents : List Content) (i d : Nat),
      (runLoop sm gen m response contents i d).2.2.1 ≤ i + m := by
  intro m
  induction m with
  | zero =>
    intro response contents i d
    by_cases hg : (response.candidates && !response.function_calls.isEmpty) = true
    · simp [runLoop, hg]
    · simp [runLoop, hg]
  | succ m ih =>
    intro response contents i d
    by_cases hg : (response.candidates && !response.function_calls.isEmpty) = true
    · simp only [runLoop, hg, if_true]
      have h := ih (gen (i + 1))
        (handleCalls sm response.function_calls contents).1 (i + 1)
        (d + (handleCalls sm response.function_calls contents).2)
      omega
    · simp [runLoop, hg]

/-- When every response carries function calls, `runLoop` consumes all its
fuel: the loop counter advances by exactly the fuel and the final response is
the one generated after the last pass. -/
theorem runLoop_never_stops (sm : List (String × Session))
    (gen : Nat → ModelResponse)
    (h : ∀ k, (gen k).candidates = true ∧ (gen k).function_calls.isEmpty = false) :
    ∀ (m i d : Nat) (contents : List Content),
      (runLoop sm gen m (gen i) contents i d).2.2.1 = i + m
      ∧ (runLoop sm gen m (gen i) contents i d).1 = gen (i + m) := by
  intro m
  induction m with
  | zero =>
    intro i d contents
    have hi := h i
    simp [runLoop, hi.1, hi.2]
  | succ m ih =>
    intro i d contents
    have hi := h i
    simp only [runLoop, hi.1, hi.2, Bool.not_false, Bool.and_self, if_true]
    have hrec := ih (i + 1)
      (d + (handleCalls sm (gen i).function_calls contents).2)
      (handleCalls sm (gen i).function_calls contents).1
    have harith : i + 1 + m = i + (m + 1) := by omega
    rw [harith] at hrec
    exact hrec

/-- When the responses at iteration counters below `N` all carry function
calls and the response at `N` carries none, `runLoop` (given enough fuel)
stops with loop counter exactly `N`, final response `gen N`, and a transcript
grown by exactly one entry per dispatched call. -/
theorem runLoop_rounds_aux (sm : List (String × Session))
    (gen : Nat → ModelResponse) (N : Nat)
    (hcalls : ∀ k, k < N →
      (gen k).candidates = true ∧ (gen k).function_calls.isEmpty = false)
    (hstop : (gen N).function_calls.isEmpty = true) :
    ∀ (m i d : Nat) (contents : List Content), i ≤ N → N ≤ i + m →
      (runLoop sm gen m (gen i) contents i d).2.2.1 = N
      ∧ (runLoop sm gen m (gen i) contents i d).1 = gen N
      ∧ (runLoop sm gen m (gen i) contents i d).2.1.length
          = contents.length + sumDispatched sm gen i (N - i)
      ∧ (runLoop sm gen m (gen i) contents i d).2.2.2
          = d + sumDispatched sm gen i (N - i) := by
  intro m
  induction m with
  | zero =>
    intro i d contents hiN hNi
    have hieq : i = N := by omega
    subst hieq
    simp [runLoop, hstop, sumDispatched]
  | succ m ih =>
    intro i d contents hiN hNi
    rcases Nat.lt_or_ge i N with hlt | hge
    · have hi := hcalls i hlt
      simp only [runLoop, hi.1, hi.2, Bool.not_false, Bool.and_self, if_true]
      have hrec := ih (i + 1)
        (d + (handleCalls sm (gen i).function_calls contents).2)
        (handleCalls sm (gen i).function_calls contents).1
        (by omega) (by omega)
      have hj : N - i = (N - (i + 1)) + 1 := by omega
      have hlen := handleCalls_length sm (gen i).function_calls contents
      have hcnt := handleCalls_count sm (gen i).function_calls contents
      refine ⟨hrec.1, hrec.2.1, ?_, ?_⟩
      · rw [hrec.2.2.1, hj]
        simp [sumDispatched]
        omega
      · rw [hrec.2.2.2, hj]
        simp [sumDispatched]
        omega
    · have hieq : i = N := by omega
      subst hieq
      simp [runLoop, hstop, sumDispatched]

/-- The `type` of a converted property is always the resolved primitive type
tag, whatever the items handling does. -/
theorem convertProp_type (d : PropDef) :
    (convertProp d).type = typeFromString (pyUpper (d.type.getD "string")) := by
  unfold convertProp
  dsimp only
  split
  · split <;> rfl
  · rfl

/-! ## Claims -/

/-- C7: for every input value that is not a mapping, `convert_schema` returns
a minimal schema with object type at the top level and no properties; being a
total function, it does not raise. -/
theorem convert_schema_non_mapping :
    convert_schema MCPInputSchema.notDict
      = { type := GType.OBJECT, properties := none, required := none } := rfl

/-- C6: a property whose declared `type` is missing, or whose uppercased type
string is not a member of the provider type enumeration, is converted with
the provider STRING type; a property resolving to ARRAY type with no `items`
sub-schema gets STRING element type. `convert_schema` applies `convertProp`
to every declared property. -/
theorem convert_schema_type_fallback (d e : PropDef)
    (hd : d.type = none ∨ typeEnumLookup (pyUpper (d.type.getD "string")) = none)
    (he : typeFromString (pyUpper (e.type.getD "string")) = GType.ARRAY)
    (hei : e.items = none) :
    (convertProp d).type = GType.STRING
    ∧ (convertProp e).items = some ⟨GType.STRING⟩
    ∧ ∀ (ps : List (String × PropDef)) (req : Option (List String)),
        (convert_schema (MCPInputSchema.dict (some ps) req)).properties
          = some (ps.map (fun p => (p.1, convertProp p.2))) := by
  refine ⟨?_, ?_, fun ps req => rfl⟩
  · rw [convertProp_type]
    rcases hd with hd | hd
    · rw [hd]
      rfl
    · unfold typeFromString
      rw [hd]
      rfl
  · unfold convertProp
    dsimp only
    rw [if_pos he, hei]

/-- C6 witness: the two fallbacks at the concrete property definitions of the
repository tests (`unknown_type` and a bare `array`). -/
theorem convert_schema_type_fallback_witness :
    (convertProp ⟨some "unknown_type", none, none⟩).type = GType.STRING
    ∧ (convertProp ⟨some "array", none, none⟩).items = some ⟨GType.STRING⟩
    ∧ (convert_schema (MCPInputSchema.dict
          (some [("query", ⟨some "array", none, none⟩)]) none)).properties
        = some [("query", convertProp ⟨some "array", none, none⟩)] := by
  have h := convert_schema_type_fallback ⟨some "unknown_type", none, none⟩
    ⟨some "array", none, none⟩ (Or.inr (by decide)) (by decide) rfl
  exact ⟨h.1, h.2.1, h.2.2 [("query", ⟨some "array", none, none⟩)] none⟩

/-- C8: `process_query` leaves the registry state unchanged: `session_maps`,
`available_tools` and `available_prompts` are identical before and after the
call, whatever the model behaviour. -/
theorem process_query_preserves_registry (st : ChatbotState)
    (gen : Nat → ModelResponse) (q : String) :
    ((process_query st gen q).1).session_maps = st.session_maps
    ∧ ((process_query st gen q).1).available_tools = st.available_tools
    ∧ ((process_query st gen q).1).available_prompts = st.available_prompts :=
  ⟨rfl, rfl, rfl⟩

/-- C9: a function-call request whose name is `None`, empty, or not registered
in the session maps is silently skipped: no tool invocation happens, no tool
turn and no error payload is appended, and handling continues with the
remaining calls exactly as if the request were absent. -/
theorem handleCalls_skips_unregistered (sm : List (String × Session))
    (fc : FunctionCall) (rest : List FunctionCall) (contents : List Content)
    (h : fc.name = none ∨ fc.name = some ""
        ∨ ∀ n, fc.name = some n → dictGet sm n = none) :
    handleCalls sm (fc :: rest) contents = handleCalls sm rest contents := by
  rcases h with h | h | h
  · simp [handleCalls, h]
  · simp [handleCalls, h]
  · match hname : fc.name with
    | none => simp [handleCalls, hname]
    | some n =>
      by_cases hn : n = ""
      · simp [handleCalls, hname, hn]
      · simp [handleCalls, hname, hn, h n hname]

/-- C9 witness: a call to the unregistered name "ghost" over an empty session
map contributes nothing. -/
theorem handleCalls_skips_unregistered_witness :
    handleCalls [] [{ name := some "ghost", args := [] }] [] = handleCalls [] [] [] :=
  handleCalls_skips_unregistered [] { name := some "ghost", args := [] } [] []
    (Or.inr (Or.inr (fun _ _ => rfl)))

/-- C3: a failure raised by a registered tool invocation is caught at the
dispatch boundary and converted into the structured payload
`{'error': str(e)}`, appended to the transcript as one tool turn; handling
then continues with the remaining calls (the exception is never propagated
past the dispatch boundary: `handleCalls` is total). -/
theorem dispatch_error_payload (sm : List (String × Session)) (n : String)
    (s : Session) (a : Args) (e : String) (rest : List FunctionCall)
    (contents : List Content)
    (hn : n ≠ "") (hs : dictGet sm n = some s)
    (he : s.call_tool n a = Except.error e) :
    handleCalls sm ({ name := some n, args := a } :: rest) contents
      = ((handleCalls sm rest (contents ++
            [{ role := "tool",
               parts := [Part.functionResponse n (FRPayload.error e)] }])).1,
         (handleCalls sm rest (contents ++
            [{ role := "tool",
               parts := [Part.functionResponse n (FRPayload.error e)] }])).2 + 1) := by
  simp [handleCalls, hn, hs, he]

/-- C3 witness: a registered tool "t" whose invocation raises "boom" yields
exactly one appended tool turn with the error payload. -/
theorem dispatch_error_payload_witness :
    handleCalls [("t", ⟨fun _ _ => Except.error "boom"⟩)]
        [{ name := some "t", args := [] }] []
      = ([{ role := "tool",
            parts := [Part.functionResponse "t" (FRPayload.error "boom")] }], 1) := by
  have h := dispatch_error_payload [("t", ⟨fun _ _ => Except.error "boom"⟩)]
    "t" ⟨fun _ _ => Except.error "boom"⟩ [] "boom" [] []
    (by decide) rfl rfl
  simpa [handleCalls] using h

/-- C5: a registered capability returning `None` makes the dispatch layer
produce the fixed sentinel string "The operation completed but didn't return
any results." (spec-modelled: `mcp_chatbot/tools.py` is absent from the
sources; `execute_tool` here is modelled from spec section 4.2 and
test_execute_tool_none_result). -/
theorem execute_tool_none_sentinel
    (mapping_tool_function : List (String × (Args → PyResult)))
    (tool_name : String) (tool_args : Args) (f : Args → PyResult)
    (hm : dictGet mapping_tool_function tool_name = some f)
    (hf : f tool_args = PyResult.noneVal) :
    execute_tool mapping_tool_function tool_name tool_args
      = some noResultsSentinel := by
  simp [execute_tool, hm, hf, normalizeResult]

/-- C5 witness: the test scenario `test_execute_tool_none_result`: a mapped
"test_tool" returning `None` yields the sentinel. -/
theorem execute_tool_none_sentinel_witness :
    execute_tool [("test_tool", fun _ => PyResult.noneVal)] "test_tool" []
      = some noResultsSentinel :=
  execute_tool_none_sentinel [("test_tool", fun _ => PyResult.noneVal)]
    "test_tool" [] (fun _ => PyResult.noneVal) rfl rfl

/-- An empty registry state (a chatbot before any server connects). -/
def emptyState : ChatbotState := ⟨[], [], []⟩

/-- A session whose every call succeeds with result content "r". -/
def okSession : Session := ⟨fun _ _ => Except.ok "r"⟩

/-- A registry state with the single registered tool name "t". -/
def oneToolState : ChatbotState := ⟨[("t", okSession)], [], []⟩

/-- A model behaviour whose first response carries one call to the registered
tool "t" and whose later responses are text-only. -/
def oneRoundGen : Nat → ModelResponse := fun k =>
  if k = 0 then
    { candidates := true
      function_calls := [{ name := some "t", args := [] }]
      text := none }
  else { candidates := true, function_calls := [], text := some "done" }

/-- C4: when the first model response carries no function-call requests, zero
tool dispatch invocations occur and the loop terminates with zero passes
(exactly one model round: the single initial generate call), leaving the
transcript at the seeded user turn and printing that first response's text. -/
theorem process_query_text_only_single_round (st : ChatbotState)
    (gen : Nat → ModelResponse) (q : String)
    (h : (gen 0).function_calls.isEmpty = true) :
    ((process_query st gen q).2).iteration = 0
    ∧ ((process_query st gen q).2).dispatches = 0
    ∧ ((process_query st gen q).2).contents = [userContent q]
    ∧ ((process_query st gen q).2).finalText = (gen 0).text := by
  simp [process_query, runLoop, max_iterations, h]

/-- C4 witness: a text-only first response over the empty registry. -/
theorem process_query_text_only_single_round_witness :
    ((process_query emptyState (fun _ =>
        { candidates := true, function_calls := [], text := some "hello" }) "q").2).iteration = 0
    ∧ ((process_query emptyState (fun _ =>
        { candidates := true, function_calls := [], text := some "hello" }) "q").2).dispatches = 0
    ∧ ((process_query emptyState (fun _ =>
        { candidates := true, function_calls := [], text := some "hello" }) "q").2).contents
        = [userContent "q"]
    ∧ ((process_query emptyState (fun _ =>
        { candidates := true, function_calls := [], text := some "hello" }) "q").2).finalText
        = ((fun _ : Nat =>
            ({ candidates := true, function_calls := [], text := some "hello" } :
              ModelResponse)) 0).text :=
  process_query_text_only_single_round emptyState
    (fun _ => { candidates := true, function_calls := [], text := some "hello" }) "q" rfl

/-- C2: the loop performs at most `max_iterations = 10` passes for every model
behaviour; and for a model that never stops requesting calls it stops with
loop counter exactly 10, the truncation warning is emitted, and the final
response text is still surfaced in addition to the warning. -/
theorem process_query_iteration_ceiling (st : ChatbotState)
    (gen : Nat → ModelResponse) (q : String)
    (h : ∀ k, (gen k).candidates = true ∧ (gen k).function_calls.isEmpty = false) :
    ((process_query st gen q).2).iteration = 10
    ∧ ((process_query st gen q).2).truncationWarning = true
    ∧ ((process_query st gen q).2).finalText = (gen 10).text
    ∧ ∀ (st2 : ChatbotState) (gen2 : Nat → ModelResponse) (q2 : String),
        ((process_query st2 gen2 q2).2).iteration ≤ 10 := by
  have hrun := runLoop_never_stops st.session_maps gen h 10 0 0 [userContent q]
  refine ⟨?_, ?_, ?_, ?_⟩
  · simpa [process_query, max_iterations] using hrun.1
  · have h1 : ((process_query st gen q).2).iteration = 10 := by
      simpa [process_query, max_iterations] using hrun.1
    simp only [process_query, max_iterations] at h1 ⊢
    simp [h1]
  · simpa [process_query, max_iterations] using congrArg ModelResponse.text hrun.2
  · intro st2 gen2 q2
    have hle := runLoop_iteration_le st2.session_maps gen2 10 (gen2 0)
      [userContent q2] 0 0
    simpa [process_query, max_iterations] using hle

/-- C2 witness: a model that requests the unregistered tool "x" on every
round still drives the loop to the ceiling of 10 with the warning emitted. -/
theorem process_query_iteration_ceiling_witness :
    ((process_query emptyState (fun _ =>
        { candidates := true, function_calls := [{ name := some "x", args := [] }],
          text := some "more" }) "q").2).iteration = 10
    ∧ ((process_query emptyState (fun _ =>
        { candidates := true, function_calls := [{ name := some "x", args := [] }],
          text := some "more" }) "q").2).truncationWarning = true
    ∧ ((process_query emptyState (fun _ =>
        { candidates := true, function_calls := [{ name := some "x", args := [] }],
          text := some "more" }) "q").2).finalText
        = ((fun _ : Nat =>
            ({ candidates := true, function_calls := [{ name := some "x", args := [] }],
               text := some "more" } : ModelResponse)) 10).text
    ∧ ((process_query oneToolState oneRoundGen "w").2).iteration ≤ 10 := by
  have h := process_query_iteration_ceiling emptyState
    (fun _ => { candidates := true, function_calls := [{ name := some "x", args := [] }],
                text := some "more" }) "q" (fun _ => ⟨rfl, rfl⟩)
  exact ⟨h.1, h.2.1, h.2.2.1, h.2.2.2 oneToolState oneRoundGen "w"⟩

/-- C1 (counterexample): a run with one round of a single dispatched call
followed by a text-only response. The final transcript has 2 entries (the
seeded user turn plus one tool turn), not 1 + one-per-dispatched-call +
one-per-model-turn = 4: model turns are never appended to the transcript by
`process_query`. -/
theorem process_query_transcript_claim_cex :
    ¬ (((process_query oneToolState oneRoundGen "q").2).contents.length
        = 1 + ((process_query oneToolState oneRoundGen "q").2).dispatches
            + (((process_query oneToolState oneRoundGen "q").2).iteration + 1)) := by
  decide

/-- C1 (amended): for a model returning `N ≤ 10` consecutive rounds of
function-call responses followed by a response with no calls, the loop
performs exactly `N` dispatch rounds, and the transcript grows by exactly one
entry per dispatched call — the seeded user turn plus the appended tool
turns; model turns contribute no transcript entries. -/
theorem process_query_rounds_transcript (st : ChatbotState)
    (gen : Nat → ModelResponse) (q : String) (N : Nat)
    (hN : N ≤ 10)
    (hcalls : ∀ k, k < N →
      (gen k).candidates = true ∧ (gen k).function_calls.isEmpty = false)
    (hstop : (gen N).function_calls.isEmpty = true) :
    ((process_query st gen q).2).iteration = N
    ∧ ((process_query st gen q).2).dispatches
        = sumDispatched st.session_maps gen 0 N
    ∧ ((process_query st gen q).2).contents.length
        = 1 + sumDispatched st.session_maps gen 0 N := by
  have hrun := runLoop_rounds_aux st.session_maps gen N hcalls hstop 10 0 0
    [userContent q] (by omega) (by omega)
  refine ⟨?_, ?_, ?_⟩
  · simpa [process_query, max_iterations] using hrun.1
  · simpa [process_query, max_iterations] using hrun.2.2.2
  · have := hrun.2.2.1
    simp only [List.length_singleton, Nat.sub_zero] at this
    simpa [process_query, max_iterations, Nat.add_comm] using this

/-- C1 witness: one round of one dispatched call to the registered tool "t"
followed by a text-only response. -/
theorem process_query_rounds_transcript_witness :
    ((process_query oneToolState oneRoundGen "q").2).iteration = 1
    ∧ ((process_query oneToolState oneRoundGen "q").2).dispatches
        = sumDispatched oneToolState.session_maps oneRoundGen 0 1
    ∧ ((process_query oneToolState oneRoundGen "q").2).contents.length
        = 1 + sumDispatched oneToolState.session_maps oneRoundGen 0 1 :=
  process_query_rounds_transcript oneToolState oneRoundGen "q" 1
    (by omega) (by decide) (by decide)

/-- C10: when two connected servers advertise a tool with the same name, the
session map resolves that name to the most recently connected session, while
`available_tools` keeps one descriptor per registration, so `process_query`
advertises duplicate declarations for the name on every subsequent query. -/
theorem connect_duplicate_tool_name (st : ChatbotState) (s1 s2 : Session)
    (t1 t2 : MCPTool) (gen : Nat → ModelResponse) (q : String)
    (h : t1.name = t2.name) :
    dictGet (connect_to_server (connect_to_server st s1 [t1] [] []) s2
        [t2] [] []).session_maps t2.name = some s2
    ∧ (connect_to_server (connect_to_server st s1 [t1] [] []) s2
        [t2] [] []).available_tools = st.available_tools ++ [t1, t2]
    ∧ ((process_query (connect_to_server (connect_to_server st s1 [t1] [] [])
          s2 [t2] [] []) gen q).2).advertisedTools.map FunctionDeclaration.name
        = (geminiToolDecls st.available_tools).map FunctionDeclaration.name
            ++ [t1.name, t1.name] := by
  refine ⟨?_, ?_, ?_⟩
  · simp [connect_to_server, dictGet_dictInsert]
  · simp [connect_to_server]
  · simp [process_query, connect_to_server, geminiToolDecls, h]

/-- C10 witness: two sessions both advertising a tool named "t". -/
theorem connect_duplicate_tool_name_witness :
    dictGet (connect_to_server (connect_to_server emptyState okSession
        [⟨"t", none, MCPInputSchema.notDict⟩] [] []) ⟨fun _ _ => Except.error "x"⟩
        [⟨"t", none, MCPInputSchema.notDict⟩] [] []).session_maps "t"
      = some ⟨fun _ _ => Except.error "x"⟩
    ∧ (connect_to_server (connect_to_server emptyState okSession
        [⟨"t", none, MCPInputSchema.notDict⟩] [] []) ⟨fun _ _ => Except.error "x"⟩
        [⟨"t", none, MCPInputSchema.notDict⟩] [] []).available_tools
      = emptyState.available_tools
          ++ [⟨"t", none, MCPInputSchema.notDict⟩, ⟨"t", none, MCPInputSchema.notDict⟩]
    ∧ ((process_query (connect_to_server (connect_to_server emptyState okSession
          [⟨"t", none, MCPInputSchema.notDict⟩] [] []) ⟨fun _ _ => Except.error "x"⟩
          [⟨"t", none, MCPInputSchema.notDict⟩] [] []) oneRoundGen
          "q").2).advertisedTools.map FunctionDeclaration.name
      = (geminiToolDecls emptyState.available_tools).map FunctionDeclaration.name
          ++ ["t", "t"] :=
  connect_duplicate_tool_name emptyState okSession ⟨fun _ _ => Except.error "x"⟩
    ⟨"t", none, MCPInputSchema.notDict⟩ ⟨"t", none, MCPInputSchema.notDict⟩
    oneRoundGen "q" rfl

end MCPChatbot
